import Mathlib

/-!
Verification of the recipy repository's test harness and notebook-magic
glue layer: a shallow embedding of `recipyCommon/magic.py`,
`integration_test/test_recipy.py`, `integration_test/script_test/base.py`
and `test/features/steps/basic.py`, with theorems settling the spec
claims about them.
-/

namespace Recipy

/-! ## recipyCommon/magic.py -/

/-- The decorator a magic method carries: `@line_magic` or `@cell_magic`. -/
inductive MagicKind
  | line
  | cell
deriving DecidableEq, Repr

/-- A magic method declared on a magics class: its name and decorator. -/
structure MagicDecl where
  name : String
  kind : MagicKind
deriving DecidableEq, Repr

/-- The magic methods the `RecipyMagic` class declares, each with the
decorator it carries in `recipyCommon/magic.py`: all three are
`@line_magic`. -/
def RecipyMagic.magics : List MagicDecl :=
  [{ name := "loadNotebookName", kind := MagicKind.line },
   { name := "recipyOn", kind := MagicKind.line },
   { name := "recipyOff", kind := MagicKind.line }]

/-- An IPython shell, reduced to the magic classes registered on it. -/
structure Shell where
  registered_magics : List (List MagicDecl)
deriving DecidableEq, Repr

/-- `ipython.register_magics(cls)`: adds a magics class to the shell. -/
def register_magics (sh : Shell) (cls : List MagicDecl) : Shell :=
  { registered_magics := sh.registered_magics ++ [cls] }

/-- `load_ipython_extension(ipython)`: registers `RecipyMagic`. -/
def load_ipython_extension (sh : Shell) : Shell :=
  register_magics sh RecipyMagic.magics

/-- The imported `recipy` module (the logging module the magics drive). -/
inductive Module
  | recipy
deriving DecidableEq, Repr

/-- Observable effects of the magic methods. -/
inductive Event
  | runJsCell
  | setNotebookMode (b : Bool)
  | printLine (msg : String)
  | logInit (notebookName : String)
  | logFlush (m : Module)
  | warnRuntimeWarning (msg : String)
deriving DecidableEq, Repr

/-- The mutable attributes of a `RecipyMagic` instance. -/
structure MagicState where
  recipyModule : Option Module
  run_in_progress : Bool
deriving DecidableEq, Repr

/-- `RecipyMagic.__init__`: `recipyModule = None`, `run_in_progress = False`. -/
def RecipyMagic.init : MagicState :=
  { recipyModule := none, run_in_progress := false }

/-- Result of running one magic method: the state it leaves, the events it
emitted, and its Python return value (`None` is `none`). -/
structure MethodOut where
  state : MagicState
  events : List Event
  ret : Option Unit
deriving DecidableEq, Repr

/-- The `loadNotebookName` line magic: runs the javascript cell and
returns `None`, leaving the instance state unchanged. -/
def loadNotebookName (s : MagicState) : MethodOut :=
  { state := s, events := [Event.runJsCell], ret := none }

/-- `getNotebookName`: the value of `recipyNotebookName` in the user
namespace when it appears within the retries, else `None`. The retry loop
with `time.sleep` is folded into the single observation `user_ns`. -/
def getNotebookName (user_ns : Option String) : Option String :=
  user_ns

/-- The `recipyOn` line magic: sets notebook mode, resolves the notebook
name (warning and falling back when it cannot), imports `recipy`, calls
`recipy.log_init`, sets `run_in_progress = True` and
`recipyModule = recipy`, and returns `None`. -/
def recipyOn (user_ns : Option String) (_s : MagicState) : MethodOut :=
  match getNotebookName user_ns with
  | some notebookName =>
      { state := { recipyModule := some Module.recipy, run_in_progress := true },
        events := [Event.setNotebookMode true, Event.logInit notebookName],
        ret := none }
  | none =>
      { state := { recipyModule := some Module.recipy, run_in_progress := true },
        events := [Event.setNotebookMode true,
                   Event.printLine "[Recipy] Warning! Unable to get notebook name! Try running notebook step by step",
                   Event.logInit "<unknown-notebook>"],
        ret := none }

/-- The `recipyOff` line magic: when a run is in progress it calls
`self.recipyModule.log_flush()` and clears `run_in_progress`; otherwise it
issues a `RuntimeWarning`. Dereferencing `log_flush` on a `None`
`recipyModule` is a Python `AttributeError`, rendered here as `none`. -/
def recipyOff (s : MagicState) : Option MethodOut :=
  if s.run_in_progress then
    match s.recipyModule with
    | some m =>
        some { state := { recipyModule := some m, run_in_progress := false },
               events := [Event.logFlush m],
               ret := none }
    | none => none
  else
    some { state := s,
           events := [Event.warnRuntimeWarning
             "Please run %recipyOn before running %recipyOff."],
           ret := none }

/-- The invariant of claim C6: a run in progress has a module to flush. -/
def MagicInv (s : MagicState) : Prop :=
  s.run_in_progress = true → s.recipyModule ≠ none

/-- How many `log_flush` calls a list of events holds. -/
def countFlush (events : List Event) : Nat :=
  (events.filter fun e =>
    match e with
    | Event.logFlush _ => true
    | _ => false).length

/-- How many `RuntimeWarning`s a list of events holds. -/
def countWarn (events : List Event) : Nat :=
  (events.filter fun e =>
    match e with
    | Event.warnRuntimeWarning _ => true
    | _ => false).length

/-! ## integration_test/script_test/base.py -/

/-- A Python object as `Base.invoke` observes it: its class name, the
names `hasattr` answers true for, and the non-dunder callable attribute
names the error path lists (those of `dir(self)` that do not start with
`__` and are `collections.Callable`). -/
structure PyObject where
  className : String
  attrs : List String
  callables : List String
deriving DecidableEq, Repr

/-- A line `Base.invoke` prints to stdout: the echo of the full argument
list, the `Function:` line, or the `Invoking:` line. -/
inductive StdoutEv
  | argumentsLine (arguments : List String)
  | functionLine (function_name : String)
  | invokingLine (function_name : String)
deriving DecidableEq, Repr

/-- How `Base.invoke` ends: `sys.exit(code)`, or calling the named
attribute as a zero-argument function. -/
inductive InvokeOutcome
  | exit (code : Nat)
  | called (function_name : String)
deriving DecidableEq, Repr

/-- Everything observable about one `Base.invoke` run. -/
structure InvokeResult where
  stdout : List StdoutEv
  stderr : List String
  outcome : InvokeOutcome
deriving DecidableEq, Repr

/-- `Base.invoke(self, arguments)`: prints the arguments; exits 1 with
`Missing function name` on stderr when fewer than 2 arguments; otherwise
takes `arguments[1]` as the function name, exits 1 listing the callable
functions on stderr when `self` has no such attribute, and otherwise
calls the attribute with no arguments. -/
def Base.invoke (self : PyObject) (arguments : List String) : InvokeResult :=
  if arguments.length < 2 then
    { stdout := [StdoutEv.argumentsLine arguments],
      stderr := ["Missing function name"],
      outcome := InvokeOutcome.exit 1 }
  else
    let function_name := arguments.getD 1 ""
    if function_name ∈ self.attrs then
      { stdout := [StdoutEv.argumentsLine arguments,
                   StdoutEv.functionLine function_name,
                   StdoutEv.invokingLine function_name],
        stderr := [],
        outcome := InvokeOutcome.called function_name }
    else
      { stdout := [StdoutEv.argumentsLine arguments,
                   StdoutEv.functionLine function_name],
        stderr := [self.className ++ " has no function " ++ function_name ++ "\n",
                   "Functions:\n"] ++ self.callables.map (fun v => v ++ "\n"),
        outcome := InvokeOutcome.exit 1 }

/-- A small concrete receiver used to evaluate `Base.invoke`. -/
def sampleObject : PyObject :=
  { className := "Base", attrs := ["go"], callables := ["go"] }

/-! ## integration_test/test_recipy.py -/

/-- Python `d[k]` on a duplicate-free association list: the value at the
first matching key, `none` being a `KeyError`. -/
def pylookup {α : Type} (k : String) : List (String × α) → Option α
  | [] => none
  | p :: rest => if p.1 = k then some p.2 else pylookup k rest

/-- Python `d[k] = v`: replaces the value at `k` in place, appending the
pair when the key is absent. -/
def pyset {α : Type} (k : String) (v : α) : List (String × α) → List (String × α)
  | [] => [(k, v)]
  | p :: rest => if p.1 = k then (p.1, v) :: rest else p :: pyset k v rest

/-- Python `d[k] = parse(d[k])`: reads the key (a `KeyError`, `none`, when
it is absent) and writes back the parsed value. -/
def pyGetSet {α : Type} (parse : α → α) (k : String) (d : List (String × α)) :
    Option (List (String × α)) :=
  match pylookup k d with
  | none => none
  | some v => some (pyset k (parse v) d)

/-- The keys of a dictionary. -/
def dictKeys {α : Type} (d : List (String × α)) : List String :=
  d.map Prod.fst

/-- Python `d1 == d2` on dictionaries: the same value (or absence) at
every key of either. -/
def dictEqB {α : Type} [DecidableEq α] (d1 d2 : List (String × α)) : Bool :=
  (dictKeys d1 ++ dictKeys d2).all fun k => decide (pylookup k d1 = pylookup k d2)

/-- `TestRecipy.compare_json_logs(log1, log2)`: for each key in
`["date", "exit_date"]` replaces the value under that key in both logs
with its parse (`environment.get_tinydatestr_as_date`, abstracted as the
function `parse`), a missing key being a `KeyError` (`none`); then the
assertion `log1 == log2`. -/
def compare_json_logs {α : Type} [DecidableEq α] (parse : α → α)
    (log1 log2 : List (String × α)) : Option Bool :=
  (pyGetSet parse "date" log1).bind fun a =>
  (pyGetSet parse "date" log2).bind fun b =>
  (pyGetSet parse "exit_date" a).bind fun a2 =>
  (pyGetSet parse "exit_date" b).bind fun b2 =>
  some (dictEqB a2 b2)

/-- Replacement of both date keys in one log, in the order the loop visits
them: first `date`, then `exit_date`. -/
def replaceDates {α : Type} (parse : α → α) (d : List (String × α)) :
    Option (List (String × α)) :=
  (pyGetSet parse "date" d).bind (pyGetSet parse "exit_date")

/-- The runtime values the `TestRecipy` tests read: the two sample file
paths made in `setup_class` and the JSON log record `helpers.get_log`
returns from the database. -/
structure TestEnv where
  input_file : String
  output_file : String
  db_log : List (String × String)
deriving DecidableEq, Repr

/-- `db_log["unique_id"]`, the run identifier the search-by-id tests pass
to the CLI (the record carries the field on every test run; a missing
field would be a Python `KeyError`, rendered by the default ""). -/
def TestEnv.unique_id (env : TestEnv) : String :=
  (pylookup "unique_id" env.db_log).getD ""

/-- `unique_id[0:int(len(unique_id) / 2)]` from `test_search_i_hash_prefix`. -/
def TestEnv.half_id (env : TestEnv) : String :=
  env.unique_id.take (env.unique_id.length / 2)

/-- One `recipy` CLI invocation a test makes, with the exit code the
following assertion expects, and whether the test asserts on the exit code
and on the captured stdout of this invocation. -/
structure RecipyCall where
  args : List String
  expected_exit : Nat
  asserts_exit : Bool
  asserts_stdout : Bool
deriving DecidableEq, Repr

/-- The `json_flag` parametrization. -/
def json_flags : List String := ["-j", "--json"]

/-- The `help_flag` parametrization. -/
def help_flags : List String := ["-h", "--help"]

/-- The `pattern` parametrization of `test_search_r`. -/
def search_r_patterns : List String :=
  [".*input.csv", ".*inp.*", ".*output.csv", ".*out.*"]

/-- The `flag` parametrization of `test_search_bad_syntax`. -/
def bad_syntax_flags : List String := ["-i", "-f", "-r", "-p"]

/-- `test_no_arguments`: runs `recipy` bare, expects exit code 1, asserts
stdout non-empty and matching `Usage:`. -/
def test_no_arguments : List RecipyCall :=
  [{ args := [], expected_exit := 1, asserts_exit := true, asserts_stdout := true }]

/-- `test_version`: runs `recipy --version`, expects exit code 0, asserts
on stdout. -/
def test_version : List RecipyCall :=
  [{ args := ["--version"], expected_exit := 0,
     asserts_exit := true, asserts_stdout := true }]

/-- `test_help`: runs `recipy -h` and `recipy --help`. -/
def test_help : List RecipyCall :=
  help_flags.map fun help_flag =>
    { args := [help_flag], expected_exit := 0,
      asserts_exit := true, asserts_stdout := true }

/-- `test_latest_empty_db`: runs `recipy latest` with no database. -/
def test_latest_empty_db : List RecipyCall :=
  [{ args := ["latest"], expected_exit := 0,
     asserts_exit := true, asserts_stdout := true }]

/-- `test_latest`: runs the script, then `recipy latest`. -/
def test_latest : List RecipyCall :=
  [{ args := ["latest"], expected_exit := 0,
     asserts_exit := true, asserts_stdout := true }]

/-- `test_latest_json`: runs `recipy latest -j|--json` and compares the
JSON with the database log. -/
def test_latest_json : List RecipyCall :=
  json_flags.map fun json_flag =>
    { args := ["latest", json_flag], expected_exit := 0,
      asserts_exit := true, asserts_stdout := true }

/-- The first `test_search_i_unknown` in the file (line 192), shadowed in
the Python class body by the later definition of the same name: runs
`recipy search -i unknown` with no database. -/
def test_search_i_unknown_shadowed : List RecipyCall :=
  [{ args := ["search", "-i", "unknown"], expected_exit := 0,
     asserts_exit := true, asserts_stdout := true }]

/-- `test_search_r`: runs `recipy search -r PATTERN -j|--json` for each
pattern of the parametrization. -/
def test_search_r : List RecipyCall :=
  search_r_patterns.flatMap fun pattern =>
    json_flags.map fun json_flag =>
      { args := ["search", "-r", pattern, json_flag], expected_exit := 0,
        asserts_exit := true, asserts_stdout := true }

/-- `test_search_r_unknown`: runs `recipy search -r .*unknown.*`. -/
def test_search_r_unknown : List RecipyCall :=
  [{ args := ["search", "-r", ".*unknown.*"], expected_exit := 0,
     asserts_exit := true, asserts_stdout := true }]

/-- `test_search_p`: for each of the input and output files, runs
`recipy search -p FILE -j|--json`. -/
def test_search_p (env : TestEnv) : List RecipyCall :=
  json_flags.flatMap fun json_flag =>
    [{ args := ["search", "-p", env.input_file, json_flag], expected_exit := 0,
       asserts_exit := true, asserts_stdout := true },
     { args := ["search", "-p", env.output_file, json_flag], expected_exit := 0,
       asserts_exit := true, asserts_stdout := true }]

/-- `test_search_p_unknown`: runs `recipy search -p unknown.csv`. -/
def test_search_p_unknown : List RecipyCall :=
  [{ args := ["search", "-p", "unknown.csv"], expected_exit := 0,
     asserts_exit := true, asserts_stdout := true }]

/-- The first `test_search_i` in the file (line 261), shadowed in the
Python class body by the identical later definition: runs
`recipy search -i HASH -j|--json` with the `unique_id` of the database
log. -/
def test_search_i_shadowed (env : TestEnv) : List RecipyCall :=
  json_flags.map fun json_flag =>
    { args := ["search", "-i", env.unique_id, json_flag], expected_exit := 0,
      asserts_exit := true, asserts_stdout := true }

/-- `test_search_i` (line 278): runs `recipy search -i HASH -j|--json`
with the `unique_id` of the database log. -/
def test_search_i (env : TestEnv) : List RecipyCall :=
  json_flags.map fun json_flag =>
    { args := ["search", "-i", env.unique_id, json_flag], expected_exit := 0,
      asserts_exit := true, asserts_stdout := true }

/-- `test_search_i_hash_prefix`: runs `recipy search -i HASH_PREFIX`
with the first half of the `unique_id`. -/
def test_search_i_hash_prefix (env : TestEnv) : List RecipyCall :=
  json_flags.map fun json_flag =>
    { args := ["search", "-i", env.half_id, json_flag], expected_exit := 0,
      asserts_exit := true, asserts_stdout := true }

/-- `test_search_i_unknown` (line 313): runs
`recipy search -i unknown -j|--json` and expects the JSON `[]`. -/
def test_search_i_unknown : List RecipyCall :=
  json_flags.map fun json_flag =>
    { args := ["search", "-i", "unknown", json_flag], expected_exit := 0,
      asserts_exit := true, asserts_stdout := true }

/-- `test_search_bad_syntax`: runs
`recipy search -i|-f|-r|-p value unexpected_value`, expects exit code 1
and asserts nothing about stdout. -/
def test_search_bad_syntax : List RecipyCall :=
  bad_syntax_flags.map fun flag =>
    { args := ["search", flag, "value", "unexpected_value"], expected_exit := 1,
      asserts_exit := true, asserts_stdout := false }

/-- The test methods of the `TestRecipy` class in source order, each with
the `recipy` CLI invocations it makes (the Python scripts the tests also
run are not `recipy` CLI invocations). The two textual definitions of
`test_search_i` and of `test_search_i_unknown` both appear, as written. -/
def TestRecipy.methods (env : TestEnv) : List (String × List RecipyCall) :=
  [("test_no_arguments", test_no_arguments),
   ("test_version", test_version),
   ("test_help", test_help),
   ("test_latest_empty_db", test_latest_empty_db),
   ("test_latest", test_latest),
   ("test_latest_json", test_latest_json),
   ("test_search_i_unknown", test_search_i_unknown_shadowed),
   ("test_search_r", test_search_r),
   ("test_search_r_unknown", test_search_r_unknown),
   ("test_search_p", test_search_p env),
   ("test_search_p_unknown", test_search_p_unknown),
   ("test_search_i", test_search_i_shadowed env),
   ("test_search_i", test_search_i env),
   ("test_search_i_hash_prefix", test_search_i_hash_prefix env),
   ("test_search_i_unknown", test_search_i_unknown),
   ("test_search_bad_syntax", test_search_bad_syntax)]

/-- Every `recipy` CLI invocation the `TestRecipy` test methods make. -/
def allRecipyCalls (env : TestEnv) : List RecipyCall :=
  ((TestRecipy.methods env).map Prod.snd).flatten

/-- The `-j|--json` flags, as claim C3 names them. -/
def isJsonFlag (s : String) : Bool :=
  s == "-j" || s == "--json"

/-- The `-i|-r|-p|-f` search flags, as claim C3 names them. -/
def isSearchFlag (s : String) : Bool :=
  s == "-i" || s == "-r" || s == "-p" || s == "-f"

/-- The CLI surface transcribed from claim C3 (the spec side of the
comparison): bare `recipy`; `recipy latest` optionally with a json flag;
`recipy --version`; `recipy -h|--help`; `recipy search` with exactly one
search flag and a value, optionally followed by a json flag or (in one
test) by the trailing extra value. -/
def claimedSurface (args : List String) : Bool :=
  match args with
  | [] => true
  | ["latest"] => true
  | ["--version"] => true
  | [h] => h == "-h" || h == "--help"
  | ["latest", j] => isJsonFlag j
  | ["search", f, _v] => isSearchFlag f
  | ["search", f, _v, x] => isSearchFlag f && (isJsonFlag x || x == "unexpected_value")
  | _ => false

/-- The exit code transcribed from claim C4 (the spec side of the
comparison): 1 for bare `recipy` and for `recipy search` given a flag, a
value and an unexpected extra value; 0 otherwise. -/
def claimedExit (args : List String) : Nat :=
  match args with
  | [] => 1
  | ["search", _f, _v, x] => if isJsonFlag x then 0 else 1
  | _ => 0

/-! ## test/features/steps/basic.py -/

/-- The behave `context` object, with the attributes the steps set on it
(`none` stands for an attribute not yet set; reading it would be a Python
`AttributeError`). -/
structure BehaveContext where
  db_file : Option String
  run_id : Option String
deriving DecidableEq, Repr

/-- The given-step `we have recipy set up for testing`: stores the
database file path `setup_testing_environment` returns on the context.
The `behave_utils` helper itself is outside the given files and is taken
as the abstract function `setup_testing_environment`. -/
def step_given_recipy_setup (setup_testing_environment : String → String)
    (context : BehaveContext) : BehaveContext :=
  { context with
    db_file := some (setup_testing_environment "/Users/robin/code/recipy/test/scratch/") }

/-- The when-step `we run some code`: stores the run id
`run_script_and_get_id` returns for `example_script2.py` on the context. -/
def step_when_run_code (run_script_and_get_id : String → String)
    (context : BehaveContext) : BehaveContext :=
  { context with run_id := some (run_script_and_get_id "example_script2.py") }

/-- The then-step `an entry should be added to the database`: checks the
stored run id against the stored database file with
`check_id_exists_in_db`; `none` is the `AttributeError` of reading an
attribute no earlier step set. -/
def step_then_entry_added (check_id_exists_in_db : String → String → Bool)
    (context : BehaveContext) : Option Bool :=
  match context.run_id, context.db_file with
  | some run_id, some db_file => some (check_id_exists_in_db run_id db_file)
  | _, _ => none

end Recipy

namespace Recipy

/-! ## Theorems about recipyCommon/magic.py -/

/-- Claim C1, counterexample: `RecipyMagic` wires no cell-magic at all —
every magic method it registers is a line magic, so the claimed
notebook cell-magic does not exist. -/
theorem recipyMagic_no_cell_magic :
    MagicKind.cell ∉ RecipyMagic.magics.map MagicDecl.kind := by
  decide

/-- Claim C1 (amended: the magics are line magics, not a cell-magic):
`load_ipython_extension` registers the `RecipyMagic` class on the shell;
that class declares the line magics `recipyOn` and `recipyOff`; invoking
`recipyOn` calls `recipy.log_init`, and invoking `recipyOff` on the state
`recipyOn` leaves calls `log_flush` on the recipy module. -/
theorem load_ipython_extension_wires_line_magics :
    (∀ sh : Shell, (load_ipython_extension sh).registered_magics
        = sh.registered_magics ++ [RecipyMagic.magics])
    ∧ ({ name := "recipyOn", kind := MagicKind.line } : MagicDecl) ∈ RecipyMagic.magics
    ∧ ({ name := "recipyOff", kind := MagicKind.line } : MagicDecl) ∈ RecipyMagic.magics
    ∧ (∀ user_ns s, ∃ n, Event.logInit n ∈ (recipyOn user_ns s).events)
    ∧ (∀ user_ns s, ∃ out, recipyOff (recipyOn user_ns s).state = some out
        ∧ Event.logFlush Module.recipy ∈ out.events) := by
  refine ⟨fun sh => rfl, by decide, by decide, ?_, ?_⟩
  · intro user_ns s
    cases user_ns with
    | none => exact ⟨"<unknown-notebook>", by simp [recipyOn, getNotebookName]⟩
    | some n => exact ⟨n, by simp [recipyOn, getNotebookName]⟩
  · intro user_ns s
    cases user_ns with
    | none =>
        exact ⟨{ state := { recipyModule := some Module.recipy, run_in_progress := false },
                 events := [Event.logFlush Module.recipy], ret := none },
               by simp [recipyOn, getNotebookName, recipyOff], by simp⟩
    | some n =>
        exact ⟨{ state := { recipyModule := some Module.recipy, run_in_progress := false },
                 events := [Event.logFlush Module.recipy], ret := none },
               by simp [recipyOn, getNotebookName, recipyOff], by simp⟩

/-- Claim C6: the invariant `run_in_progress → recipyModule ≠ None` holds
after `__init__`, is preserved by `loadNotebookName`, `recipyOn` and
`recipyOff`, and under it `recipyOff` never dereferences a `None`
`recipyModule` (it never raises). -/
theorem recipyMagic_invariant :
    MagicInv RecipyMagic.init
    ∧ (∀ s, MagicInv s → MagicInv (loadNotebookName s).state)
    ∧ (∀ user_ns s, MagicInv (recipyOn user_ns s).state)
    ∧ (∀ s out, recipyOff s = some out → MagicInv s → MagicInv out.state)
    ∧ (∀ s, MagicInv s → recipyOff s ≠ none) := by
  refine ⟨by simp [MagicInv, RecipyMagic.init], fun s h => h, ?_, ?_, ?_⟩
  · intro user_ns s
    cases user_ns <;> simp [MagicInv, recipyOn, getNotebookName]
  · intro s out hout hs
    by_cases hr : s.run_in_progress
    · rcases hm : s.recipyModule with _ | m
      · exact absurd hm (hs hr)
      · simp [recipyOff, hr, hm] at hout
        simp [MagicInv, ← hout]
    · simp [recipyOff, hr] at hout
      simp [MagicInv, ← hout, hr]
  · intro s hs
    by_cases hr : s.run_in_progress
    · rcases hm : s.recipyModule with _ | m
      · exact absurd hm (hs hr)
      · simp [recipyOff, hr, hm]
    · simp [recipyOff, hr]

/-- Claim C7: on a state satisfying the class invariant, `recipyOff`
returns normally; it issues a `RuntimeWarning` exactly when no run is in
progress and then changes nothing, it calls `log_flush` exactly once when
a run is in progress, `run_in_progress` is `False` afterwards in every
case, and the Python return value is always `None`. -/
theorem recipyOff_spec (s : MagicState) (h : MagicInv s) :
    ∃ out, recipyOff s = some out
      ∧ countWarn out.events = (if s.run_in_progress then 0 else 1)
      ∧ countFlush out.events = (if s.run_in_progress then 1 else 0)
      ∧ (s.run_in_progress = false → out.state = s)
      ∧ out.state.run_in_progress = false
      ∧ out.ret = none := by
  by_cases hr : s.run_in_progress
  · rcases hm : s.recipyModule with _ | m
    · exact absurd hm (h hr)
    · refine ⟨MethodOut.mk (MagicState.mk (some m) false) [Event.logFlush m] none, ?_, ?_⟩
      · simp [recipyOff, hr, hm]
      · simp [countWarn, countFlush, hr]
  · rw [Bool.not_eq_true] at hr
    refine ⟨MethodOut.mk s
      [Event.warnRuntimeWarning "Please run %recipyOn before running %recipyOff."]
      none, ?_, ?_⟩
    · simp [recipyOff, hr]
    · simp [countWarn, countFlush, hr]

/-- Claim C7, witness: the specification of `recipyOff` evaluated on the
freshly initialised state (no run in progress, no module). -/
theorem recipyOff_spec_witness :
    ∃ out, recipyOff { recipyModule := none, run_in_progress := false } = some out
      ∧ countWarn out.events = 1
      ∧ countFlush out.events = 0
      ∧ (false = false → out.state
          = { recipyModule := none, run_in_progress := false })
      ∧ out.state.run_in_progress = false
      ∧ out.ret = none :=
  recipyOff_spec { recipyModule := none, run_in_progress := false }
    (by simp [MagicInv])

/-! ## Theorems about integration_test/script_test/base.py -/

/-- Claim C5, counterexample: two argument lists agreeing on their first
two elements do not give the same behaviour — `Base.invoke` echoes the
whole argument list to stdout, so a third element changes the output. -/
theorem invoke_not_trailing_blind :
    Base.invoke sampleObject ["script", "go"]
      ≠ Base.invoke sampleObject ["script", "go", "extra"] := by
  decide

/-- Claim C5 (amended: elements after the second are ignored by the exit
status, the stderr output and the called function, while the echo of the
argument list on stdout does see them): `Base.invoke` exits with status 1,
writing a diagnostic to stderr, exactly when the list has fewer than 2
elements or the receiver has no attribute named by the second element;
otherwise it calls that attribute as a zero-argument function; and the
outcome and stderr agree on any two lists with the same first two
elements. -/
theorem invoke_spec :
    (∀ (self : PyObject) (arguments : List String),
      (Base.invoke self arguments).outcome = InvokeOutcome.exit 1
        ↔ (arguments.length < 2 ∨ arguments.getD 1 "" ∉ self.attrs))
    ∧ (∀ (self : PyObject) (arguments : List String),
      (Base.invoke self arguments).outcome = InvokeOutcome.exit 1 →
        (Base.invoke self arguments).stderr ≠ [])
    ∧ (∀ (self : PyObject) (arguments : List String),
      2 ≤ arguments.length → arguments.getD 1 "" ∈ self.attrs →
        (Base.invoke self arguments).outcome
          = InvokeOutcome.called (arguments.getD 1 ""))
    ∧ (∀ (self : PyObject) (a b : List String),
      a.take 2 = b.take 2 → 2 ≤ a.length → 2 ≤ b.length →
        (Base.invoke self a).outcome = (Base.invoke self b).outcome
          ∧ (Base.invoke self a).stderr = (Base.invoke self b).stderr) := by
  have hlen : ∀ n : Nat, ¬ n + 1 + 1 < 2 := by
    intro n
    omega
  refine ⟨?_, ?_, ?_, ?_⟩
  · intro self arguments
    match arguments with
    | [] => simp [Base.invoke]
    | [a] => simp [Base.invoke]
    | a :: b :: rest =>
        by_cases hb : b ∈ self.attrs <;>
          simp [Base.invoke, hlen, hb]
  · intro self arguments hexit
    match arguments with
    | [] => simp [Base.invoke]
    | [a] => simp [Base.invoke]
    | a :: b :: rest =>
        by_cases hb : b ∈ self.attrs
        · simp [Base.invoke, hlen, hb] at hexit
        · simp [Base.invoke, hlen, hb]
  · intro self arguments h2 hmem
    match arguments with
    | [] => simp at h2
    | [a] => simp at h2
    | a :: b :: rest =>
        simp at hmem
        simp [Base.invoke, hlen, hmem]
  · intro self a b htake ha hb
    match a, b with
    | a1 :: a2 :: ra, b1 :: b2 :: rb =>
        simp [List.take_succ_cons] at htake
        obtain ⟨h1, h2⟩ := htake
        subst h1
        subst h2
        by_cases hmem : a2 ∈ self.attrs <;>
          simp [Base.invoke, hlen, hmem]
    | [], _ => simp at ha
    | [_], _ => simp at ha
    | _ :: _ :: _, [] => simp at hb
    | _ :: _ :: _, [_] => simp at hb

/-- Claim C5, witness: the amended specification evaluated on the sample
receiver and the two-element list `[script, go]`. -/
theorem invoke_spec_witness :
    ((Base.invoke sampleObject ["script", "go"]).outcome = InvokeOutcome.exit 1
      ↔ (["script", "go"].length < 2
          ∨ ["script", "go"].getD 1 "" ∉ sampleObject.attrs))
    ∧ (2 ≤ (["script", "go"] : List String).length)
    ∧ (Base.invoke sampleObject ["script", "go"]).outcome
        = InvokeOutcome.called "go" :=
  ⟨invoke_spec.1 sampleObject ["script", "go"], by decide,
   invoke_spec.2.2.1 sampleObject ["script", "go"] (by decide) (by decide)⟩

/-! ## Theorems about integration_test/test_recipy.py -/

/-- Looking a key up after a Python assignment: the assigned key reads the
new value, every other key is untouched. -/
theorem pylookup_pyset {α : Type} (k k2 : String) (v : α) (d : List (String × α)) :
    pylookup k2 (pyset k v d) = if k2 = k then some v else pylookup k2 d := by
  induction d with
  | nil =>
      rcases eq_or_ne k2 k with h | h
      · subst h
        simp [pyset, pylookup]
      · simp [pyset, pylookup, h, Ne.symm h]
  | cons p rest ih =>
      rcases eq_or_ne p.1 k with hp | hp
      · rcases eq_or_ne k2 k with h | h
        · subst h
          simp [pyset, pylookup, hp]
        · simp [pyset, pylookup, hp, h, Ne.symm h]
      · rcases eq_or_ne p.1 k2 with hq | hq
        · have hk : k2 ≠ k := by
            rw [← hq]
            exact hp
          simp [pyset, pylookup, hp, hq, hk]
        · simp [pyset, pylookup, hp, hq, ih]

/-- A Python assignment leaves every other key reading as before. -/
theorem pylookup_pyset_ne {α : Type} (k k2 : String) (h : k2 ≠ k) (v : α)
    (d : List (String × α)) : pylookup k2 (pyset k v d) = pylookup k2 d := by
  rw [pylookup_pyset]
  simp [h]

/-- A key outside the dictionary reads as `none` (a `KeyError`). -/
theorem pylookup_eq_none_of_not_mem {α : Type} (k : String) (d : List (String × α))
    (h : k ∉ dictKeys d) : pylookup k d = none := by
  induction d with
  | nil => rfl
  | cons p rest ih =>
      rw [dictKeys, List.map_cons, List.mem_cons] at h
      push_neg at h
      rw [pylookup]
      rw [if_neg (Ne.symm h.1)]
      exact ih h.2

/-- Python dictionary equality is lookup equality at every key. -/
theorem dictEqB_iff {α : Type} [DecidableEq α] (d1 d2 : List (String × α)) :
    dictEqB d1 d2 = true ↔ ∀ k, pylookup k d1 = pylookup k d2 := by
  unfold dictEqB
  rw [List.all_eq_true]
  constructor
  · intro h k
    by_cases hk : k ∈ dictKeys d1 ++ dictKeys d2
    · exact of_decide_eq_true (h k hk)
    · rw [List.mem_append] at hk
      push_neg at hk
      rw [pylookup_eq_none_of_not_mem k d1 hk.1, pylookup_eq_none_of_not_mem k d2 hk.2]
  · intro h k _
    exact decide_eq_true (h k)

/-- `compare_json_logs` is the comparison of the two replaced logs. -/
theorem compare_json_logs_eq {α : Type} [DecidableEq α] (parse : α → α)
    (l1 l2 : List (String × α)) :
    compare_json_logs parse l1 l2
      = (replaceDates parse l1).bind fun r1 =>
          (replaceDates parse l2).map fun r2 => dictEqB r1 r2 := by
  unfold compare_json_logs replaceDates
  cases h1 : pyGetSet parse "date" l1 with
  | none => simp
  | some a =>
      cases h2 : pyGetSet parse "date" l2 with
      | none =>
          cases h3 : pyGetSet parse "exit_date" a <;> simp [h3]
      | some b =>
          cases h3 : pyGetSet parse "exit_date" a <;>
            cases h4 : pyGetSet parse "exit_date" b <;> simp [h3, h4]

/-- `compare_json_logs` returns (rather than raising a `KeyError`) exactly
when both logs contain both of the keys `date` and `exit_date`. -/
theorem compare_json_logs_isSome {α : Type} [DecidableEq α] (parse : α → α)
    (l1 l2 : List (String × α)) :
    (compare_json_logs parse l1 l2).isSome
      = ((pylookup "date" l1).isSome && (pylookup "date" l2).isSome
          && (pylookup "exit_date" l1).isSome && (pylookup "exit_date" l2).isSome) := by
  unfold compare_json_logs
  cases h1 : pylookup "date" l1 with
  | none => simp [pyGetSet, h1]
  | some v1 =>
      cases h2 : pylookup "date" l2 with
      | none => simp [pyGetSet, h1, h2]
      | some v2 =>
          have e1 : pylookup "exit_date" (pyset "date" (parse v1) l1)
              = pylookup "exit_date" l1 :=
            pylookup_pyset_ne _ _ (by decide) _ _
          have e2 : pylookup "exit_date" (pyset "date" (parse v2) l2)
              = pylookup "exit_date" l2 :=
            pylookup_pyset_ne _ _ (by decide) _ _
          cases h3 : pylookup "exit_date" l1 with
          | none => simp [pyGetSet, h1, h2, e1, e2, h3]
          | some w1 =>
              cases h4 : pylookup "exit_date" l2 <;>
                simp [pyGetSet, h1, h2, e1, e2, h3, h4]

/-- The comparison passes exactly when the two logs, after the two date
keys are replaced, read equal at every key. -/
theorem compare_json_logs_passes_iff {α : Type} [DecidableEq α] (parse : α → α)
    (l1 l2 : List (String × α)) :
    compare_json_logs parse l1 l2 = some true
      ↔ ∃ r1 r2, replaceDates parse l1 = some r1 ∧ replaceDates parse l2 = some r2
          ∧ ∀ k, pylookup k r1 = pylookup k r2 := by
  rw [compare_json_logs_eq]
  cases hr1 : replaceDates parse l1 with
  | none => simp
  | some r1 =>
      cases hr2 : replaceDates parse l2 with
      | none => simp
      | some r2 => simp [dictEqB_iff]

/-- Claim C2: `compare_json_logs` requires both logs to contain the keys
`date` and `exit_date` (it returns, rather than raising a `KeyError`,
exactly when they do); it passes exactly when the two logs are equal as
dictionaries after the values under exactly those two keys are replaced by
their parsed dates; and the search-by-id tests pass the `unique_id` field
of the database log record as the run identifier. -/
theorem compare_json_logs_spec :
    (∀ (α : Type) [DecidableEq α] (parse : α → α) (l1 l2 : List (String × α)),
      ((compare_json_logs parse l1 l2).isSome
        ↔ ((pylookup "date" l1).isSome ∧ (pylookup "exit_date" l1).isSome
            ∧ (pylookup "date" l2).isSome ∧ (pylookup "exit_date" l2).isSome))
      ∧ (compare_json_logs parse l1 l2 = some true
        ↔ ∃ r1 r2, replaceDates parse l1 = some r1 ∧ replaceDates parse l2 = some r2
            ∧ ∀ k, pylookup k r1 = pylookup k r2))
    ∧ (∀ env : TestEnv, ∀ c ∈ test_search_i env,
        c.args.getD 2 "" = env.unique_id) := by
  refine ⟨?_, ?_⟩
  · intro α inst parse l1 l2
    refine ⟨?_, compare_json_logs_passes_iff parse l1 l2⟩
    rw [compare_json_logs_isSome]
    simp only [Bool.and_eq_true]
    tauto
  · intro env c hc
    simp only [test_search_i, json_flags, List.map_cons, List.map_nil,
      List.mem_cons, List.not_mem_nil, or_false] at hc
    rcases hc with h | h <;> subst h <;> rfl

/-- Claim C3: every `recipy` CLI invocation the `TestRecipy` test methods
make lies in the claimed surface: bare `recipy`, `recipy latest`
optionally with `-j|--json`, `recipy --version`, `recipy -h|--help`, and
`recipy search` with exactly one of `-i|-r|-p|-f` and a value, optionally
followed by `-j|--json` or (in one test) a trailing extra value. -/
theorem testRecipy_calls_in_surface (env : TestEnv) :
    (allRecipyCalls env).all (fun c => claimedSurface c.args) = true := by
  rfl

/-- Claim C4: every test method asserts on the exit code of each `recipy`
invocation it makes, expecting exactly the code of claim C4 (1 for bare
`recipy` and for the bad-syntax search, else 0), and asserts on the
captured stdout exactly when the method is not `test_search_bad_syntax`. -/
theorem testRecipy_asserts (env : TestEnv) :
    ((TestRecipy.methods env).all fun m =>
      m.2.all fun c =>
        c.asserts_exit && (c.expected_exit == claimedExit c.args)
          && (c.asserts_stdout == !(m.1 == "test_search_bad_syntax"))) = true := by
  rfl

/-! ## Theorems about test/features/steps/basic.py -/

/-- Claim C8: whatever the `behave_utils` helpers compute and whatever the
initial context, the given-step stores the database file path returned by
`setup_testing_environment` on the context, the when-step stores the run
id returned by running `example_script2.py` on the context, and the
then-step checks exactly that stored run id against exactly that stored
database file. -/
theorem behave_scenario_spec
    (setup_testing_environment : String → String)
    (run_script_and_get_id : String → String)
    (check_id_exists_in_db : String → String → Bool)
    (context : BehaveContext) :
    (step_given_recipy_setup setup_testing_environment context).db_file
        = some (setup_testing_environment "/Users/robin/code/recipy/test/scratch/")
    ∧ (step_when_run_code run_script_and_get_id context).run_id
        = some (run_script_and_get_id "example_script2.py")
    ∧ step_then_entry_added check_id_exists_in_db
          (step_when_run_code run_script_and_get_id
            (step_given_recipy_setup setup_testing_environment context))
        = some (check_id_exists_in_db
            (run_script_and_get_id "example_script2.py")
            (setup_testing_environment "/Users/robin/code/recipy/test/scratch/")) :=
  ⟨rfl, rfl, rfl⟩

end Recipy
